import Mathlib

/-!
Shallow embedding of the workbox-routing `Router` class
(src/packages/workbox-routing/src/Router.ts) and of the cache-priming
message listener it installs.

Modelling conventions:
* A JS `Map<HTTPMethod, Route[]>` is an association list in key-insertion
  order; `Map.has` / `Map.get` / `Map.set` become `mapHas` / `mapGet` /
  `mapSet`.
* Reference identity of `Route` objects (JS `===`, used by
  `Array.prototype.indexOf` in `unregisterRoute`) is modelled by a numeric
  `id` field: distinct route objects carry distinct ids.
* A match callback's JS return value is classified by the exact checks
  `findMatchingRoute` performs on it: falsy, an array, a plain object
  (constructor === Object), or any other truthy value.  Note that in JS an
  empty array and an empty plain object are truthy.
* A handler's `handle` call either throws synchronously, returns a promise
  that rejects, or returns a promise that fulfills; promises settle to
  `Except String String` (error message or response).
* `handleRequest` is instrumented: besides its return value (`none` models
  the `undefined` return, `some` a returned promise with its settled
  outcome) it records which route match callbacks ran, which handler was
  invoked with which arguments, and which catch handler was invoked.
-/

/-- A parsed URL, as produced by `new URL(request.url, location.href)`.
The `protocol` field includes the trailing colon, e.g. `"https:"`. -/
structure URLModel where
  protocol : String
  href : String
deriving DecidableEq, Repr

/-- A request: its parsed URL and its HTTP method string. -/
structure Request where
  url : URLModel
  method : String
deriving DecidableEq, Repr

/-- Classification of the value returned by a route's `match` callback,
by the checks `Router.findMatchingRoute` applies to it:
`falsy` (no match), an array, a plain object (key-value entries), or any
other truthy value (a sentinel with no captures). -/
inductive MatchResult where
  | falsy
  | arr (elems : List String)
  | obj (entries : List (String × String))
  | truthy
deriving DecidableEq, Repr

/-- JS truthiness of a match result: everything except a falsy value is
truthy; in particular an empty array and an empty object are truthy. -/
def MatchResult.isTruthy : MatchResult → Bool
  | .falsy => false
  | _ => true

/-- Params passed to a handler: a non-empty array or a non-empty plain
object of captures.  `Option Params` models `params` possibly `undefined`. -/
inductive Params where
  | arr (elems : List String)
  | obj (entries : List (String × String))
deriving DecidableEq, Repr

/-- The argument object `\x7burl, request, event\x7d` passed to a route's
`match` callback.  The optional triggering event is opaque, an id. -/
structure MatchArgs where
  url : URLModel
  request : Request
  event : Option Nat
deriving DecidableEq, Repr

/-- The argument object `\x7burl, request, event, params\x7d` passed to a
handler's `handle` operation. -/
structure HandlerArgs where
  url : URLModel
  request : Request
  event : Option Nat
  params : Option Params
deriving DecidableEq, Repr

/-- Behaviour of one `handler.handle(args)` call: throw synchronously,
return a promise that rejects, or return a promise that fulfills. -/
inductive HandleBehavior where
  | throwSync (e : String)
  | reject (e : String)
  | resolve (r : String)
deriving DecidableEq, Repr

/-- A normalized handler object: an identity (for the invocation trace) and
its `handle` operation. -/
structure Handler where
  id : Nat
  handle : HandlerArgs → HandleBehavior

/-- A route object: identity (modelling JS reference identity), HTTP
method, `match` callback and handler. -/
structure Route where
  id : Nat
  method : String
  matchFn : MatchArgs → MatchResult
  handler : Handler

/-- JS `String.prototype.startsWith`, modelled over the character lists of
the two strings so that it evaluates by kernel reduction. -/
def jsStartsWith (s p : String) : Bool :=
  p.data.isPrefixOf s.data

/-- The settled outcome of the promise produced by a `handle` call: a
synchronous throw is converted by `handleRequest`'s try/catch into
`Promise.reject(err)`, so it settles like a rejection. -/
def settleBehavior : HandleBehavior → Except String String
  | .throwSync e => .error e
  | .reject e => .error e
  | .resolve v => .ok v

/-- `Map.prototype.has` on the method-to-routes map. -/
def mapHas (m : List (String × List Route)) (k : String) : Bool :=
  m.any (fun p => p.1 == k)

/-- `Map.prototype.get` on the method-to-routes map (`none` = `undefined`). -/
def mapGet (m : List (String × List Route)) (k : String) : Option (List Route) :=
  (m.find? (fun p => p.1 == k)).map (fun p => p.2)

/-- `Map.prototype.set`: replace the value at an existing key in place, or
append a new key-value entry. -/
def mapSet (m : List (String × List Route)) (k : String) (v : List Route) :
    List (String × List Route) :=
  if mapHas m k then m.map (fun p => if p.1 == k then (k, v) else p)
  else m ++ [(k, v)]

/-- The `WorkboxError`s thrown by `unregisterRoute`, distinguished by their
error code. -/
inductive WorkboxError where
  | unregisterRouteButNotFoundWithMethod (method : String)
  | unregisterRouteRouteNotRegistered
deriving DecidableEq, Repr

/-- The Router's mutable state: `_routes`, `_defaultHandler`,
`_catchHandler`. -/
structure Router where
  routes : List (String × List Route)
  defaultHandler : Option Handler
  catchHandler : Option Handler

/-- `new Router()`: empty route map, no default handler, no catch handler. -/
def Router.new : Router := ⟨[], none, none⟩

/-- Modelled from the spec: `normalizeHandler`
(workbox-routing/src/utils/normalizeHandler.ts is not under src/) wraps a
raw callback into the Handler capability shape and leaves a value already
of that shape unchanged; handlers in this embedding are already
Handler-shaped, so it is the identity. -/
def normalizeHandler (h : Handler) : Handler := h

/-- `Router.setDefaultHandler`. -/
def Router.setDefaultHandler (r : Router) (h : Handler) : Router :=
  { r with defaultHandler := some (normalizeHandler h) }

/-- `Router.setCatchHandler`. -/
def Router.setCatchHandler (r : Router) (h : Handler) : Router :=
  { r with catchHandler := some (normalizeHandler h) }

/-- `Router.registerRoute`: create the method's array if absent, then push
the route at its end. -/
def Router.registerRoute (r : Router) (route : Route) : Router :=
  let m := if mapHas r.routes route.method then r.routes
           else mapSet r.routes route.method []
  { r with routes := mapSet m route.method (((mapGet m route.method).getD []) ++ [route]) }

/-- `Array.prototype.indexOf(route)` over a route array, with `===`
modelled as id equality; `-1` when not present. -/
def routeIndexOf (l : List Route) (route : Route) : Int :=
  match l.findIdx? (fun r => r.id == route.id) with
  | some i => (i : Int)
  | none => -1

/-- `Router.unregisterRoute` in state-passing form: the resulting state
paired with the thrown `WorkboxError`, if any.  Mirrors the source: throw
`unregister-route-but-not-found-with-method` when the method has no entry
in the map; otherwise locate the route by identity and either splice out
exactly that one element or throw
`unregister-route-route-not-registered`. -/
def Router.unregisterRouteS (r : Router) (route : Route) :
    Router × Option WorkboxError :=
  if ¬ mapHas r.routes route.method then
    (r, some (WorkboxError.unregisterRouteButNotFoundWithMethod route.method))
  else
    let l := (mapGet r.routes route.method).getD []
    let routeIndex := routeIndexOf l route
    if routeIndex > -1 then
      ({ r with routes := mapSet r.routes route.method (l.eraseIdx routeIndex.toNat) },
       none)
    else
      (r, some WorkboxError.unregisterRouteRouteNotRegistered)

/-- Params normalization inside `findMatchingRoute`'s loop body, applied to
a truthy match result: a non-empty array or non-empty plain object becomes
the params, an empty array, empty object or other truthy sentinel leaves
params `undefined`. -/
def normalizeParams (m : MatchResult) : Option Params :=
  match m with
  | .arr es => if 0 < es.length then some (.arr es) else none
  | .obj kv => if 0 < kv.length then some (.obj kv) else none
  | _ => none

/-- The `for (const route of routes)` loop of `Router.findMatchingRoute`:
returns the ids of the routes whose `match` callback was invoked, and the
first route with a truthy match result together with its normalized
params.  Returns early on the first match. -/
def findMatchingRouteList (args : MatchArgs) :
    List Route → List Nat × Option (Route × Option Params)
  | [] => ([], none)
  | route :: rest =>
    let matchResult := route.matchFn args
    if matchResult.isTruthy then
      ([route.id], some (route, normalizeParams matchResult))
    else
      let next := findMatchingRouteList args rest
      (route.id :: next.1, next.2)

/-- `Router.findMatchingRoute`: look up the routes registered for
`request.method` (an absent entry behaves as the empty array) and scan them
in registration order. -/
def Router.findMatchingRoute (r : Router) (url : URLModel) (request : Request)
    (event : Option Nat) : List Nat × Option (Route × Option Params) :=
  findMatchingRouteList ⟨url, request, event⟩
    ((mapGet r.routes request.method).getD [])

/-- Instrumented result of one `Router.handleRequest` call.  `response` is
`none` when the method returned `undefined`, otherwise the settled outcome
of the returned promise.  The trace fields record the ids of the routes
whose match callbacks ran, the invoked handler (id and argument object)
and the invoked catch handler (id and argument object). -/
structure HandleOutcome where
  response : Option (Except String String)
  matchEvals : List Nat
  handlerInvocations : List (Nat × HandlerArgs)
  catchInvocations : List (Nat × HandlerArgs)
deriving Repr

/-- `Router.handleRequest`: return `undefined` for a non-http(s) scheme
without touching any route; otherwise find a matching route, fall back to
the default handler when no route matched, return `undefined` when no
handler was resolved; invoke the resolved handler (a synchronous throw
becomes a rejected promise), and when a catch handler is set recover from
a failed result by invoking it with `\x7burl, request, event\x7d`. -/
def Router.handleRequest (r : Router) (request : Request) (event : Option Nat) :
    HandleOutcome :=
  let url := request.url
  if ¬ jsStartsWith url.protocol "http" then
    ⟨none, [], [], []⟩
  else
    let found := r.findMatchingRoute url request event
    let params := found.2.bind (fun p => p.2)
    let routeHandler := found.2.map (fun p => p.1.handler)
    let handler := match routeHandler with
      | some h => some h
      | none => r.defaultHandler
    match handler with
    | none => ⟨none, found.1, [], []⟩
    | some h =>
      let args : HandlerArgs := ⟨url, request, event, params⟩
      let responsePromise := settleBehavior (h.handle args)
      match responsePromise, r.catchHandler with
      | .error _, some c =>
        let cargs : HandlerArgs := ⟨url, request, event, none⟩
        ⟨some (settleBehavior (c.handle cargs)), found.1,
         [(h.id, args)], [(c.id, cargs)]⟩
      | out, _ =>
        ⟨some out, found.1, [(h.id, args)], []⟩

/-- `Router.findMatchingRoute` in state-passing form: the method contains
no assignment to any Router field, so the state component is the receiver
unchanged. -/
def Router.findMatchingRouteS (r : Router) (url : URLModel) (request : Request)
    (event : Option Nat) :
    Router × (List Nat × Option (Route × Option Params)) :=
  (r, r.findMatchingRoute url request event)

/-- `Router.handleRequest` in state-passing form: the method contains no
assignment to any Router field, so the state component is the receiver
unchanged. -/
def Router.handleRequestS (r : Router) (request : Request) (event : Option Nat) :
    Router × HandleOutcome :=
  (r, r.handleRequest request event)

/-- One entry of `payload.urlsToCache`: a bare URL string, or a
[URL, requestInit] pair (the init object is opaque here). -/
inductive RequestArg where
  | str (url : String)
  | pair (url : String) (init : Option String)
deriving DecidableEq, Repr

/-- The data of a `CACHE_URLS` message. -/
structure CacheURLsMessageData where
  type : String
  urlsToCache : List RequestArg
deriving DecidableEq, Repr

/-- Did a derived `handleRequest` operation fulfill?  An `undefined` return
is a non-promise entry of `Promise.all` and counts as fulfilled; a promise
counts as fulfilled exactly when it does not reject. -/
def isFulfilled (o : HandleOutcome) : Bool :=
  match o.response with
  | some (.error _) => false
  | _ => true

/-- Instrumented result of one run of the message listener installed by
`Router.addCacheListener`.  `handled` records whether the message was
recognized; `derivedRequests` the requests synthesized from the payload in
order; `derivedOutcomes` the corresponding `handleRequest` results;
`replyPostedAt` the abstract time at which `true` was posted on the reply
port, or `none` when nothing was posted. -/
structure CacheListenerOutcome where
  handled : Bool
  derivedRequests : List Request
  derivedOutcomes : List HandleOutcome
  replyPostedAt : Option Nat
deriving Repr

/-- The message listener body of `Router.addCacheListener`, with the
asynchrony made explicit by abstract settle times: `mkRequest` models
`new Request(...entry)`, `settleTime` gives the time at which each derived
operation settles.  `Promise.all` of the derived operations fulfills at the
latest settle time when every operation fulfills; `await requestPromises`
then reaches `postMessage(true)` only in that case and only when the
message carried a port, so the reply time is that latest settle time. -/
def Router.onCacheMessage (r : Router) (data : Option CacheURLsMessageData)
    (hasPort : Bool) (mkRequest : String → Option String → Request)
    (settleTime : Request → Nat) : CacheListenerOutcome :=
  match data with
  | none => ⟨false, [], [], none⟩
  | some d =>
    if d.type = "CACHE_URLS" then
      let reqs := d.urlsToCache.map (fun e => match e with
        | .str u => mkRequest u none
        | .pair u i => mkRequest u i)
      let outcomes := reqs.map (fun req => r.handleRequest req none)
      let allFulfilled := outcomes.all isFulfilled
      let allSettled := (reqs.map settleTime).foldr max 0
      ⟨true, reqs, outcomes,
       if hasPort && allFulfilled then some allSettled else none⟩
    else ⟨false, [], [], none⟩

/-! ### Helper lemmas -/

theorem findMatchingRouteList_first_match (args : MatchArgs) (l₁ l₂ : List Route)
    (r : Route)
    (h₁ : ∀ r' ∈ l₁, (r'.matchFn args).isTruthy = false)
    (h₂ : (r.matchFn args).isTruthy = true) :
    findMatchingRouteList args (l₁ ++ r :: l₂) =
      (l₁.map Route.id ++ [r.id], some (r, normalizeParams (r.matchFn args))) := by
  induction l₁ with
  | nil =>
    simp [findMatchingRouteList, h₂]
  | cons a t ih =>
    have ha := h₁ a (List.mem_cons_self a t)
    have ih' := ih (fun r' hr' => h₁ r' (List.mem_cons_of_mem a hr'))
    simp [findMatchingRouteList, ha, ih']

theorem handleRequest_of_found (router : Router) (request : Request)
    (event : Option Nat) (tr : List Nat) (r : Route) (ps : Option Params)
    (hhttp : jsStartsWith request.url.protocol "http" = true)
    (hfind : router.findMatchingRoute request.url request event = (tr, some (r, ps))) :
    router.handleRequest request event =
      (match settleBehavior (r.handler.handle ⟨request.url, request, event, ps⟩),
             router.catchHandler with
       | .error _, some c =>
         ⟨some (settleBehavior (c.handle ⟨request.url, request, event, none⟩)), tr,
          [(r.handler.id, ⟨request.url, request, event, ps⟩)],
          [(c.id, ⟨request.url, request, event, none⟩)]⟩
       | out, _ =>
         ⟨some out, tr, [(r.handler.id, ⟨request.url, request, event, ps⟩)], []⟩) := by
  simp [Router.handleRequest, hhttp, hfind]

/-! ### Fixtures for witnesses -/

def urlHttpsA : URLModel := ⟨"https:", "https://example.com/a"⟩

def urlFtpA : URLModel := ⟨"ftp:", "ftp://example.com/a"⟩

def reqGetA : Request := ⟨urlHttpsA, "GET"⟩

def reqFtpA : Request := ⟨urlFtpA, "GET"⟩

def handlerA : Handler := ⟨10, fun _ => .resolve "responseA"⟩

def handlerB : Handler := ⟨11, fun _ => .resolve "responseB"⟩

def routeA : Route := ⟨1, "GET", fun _ => .truthy, handlerA⟩

def routeB : Route := ⟨2, "GET", fun _ => .truthy, handlerB⟩

def routerAB : Router := (Router.new.registerRoute routeA).registerRoute routeB

/-! ### Claims -/

/-- Claim C1: among routes registered under the same method, the
earliest-registered route whose match predicate is truthy is selected by
`findMatchingRoute` (and hence its handler is the one `handleRequest`
invokes), and the match predicates of routes after the first matching one
are never invoked: the evaluation trace is exactly the ids of the earlier
non-matching routes followed by the matching route's id. -/
theorem claim_C1_earliest_registered_route_wins (router : Router)
    (request : Request) (event : Option Nat) (l₁ l₂ : List Route) (r : Route)
    (hroutes : (mapGet router.routes request.method).getD [] = l₁ ++ r :: l₂)
    (h₁ : ∀ r' ∈ l₁, (r'.matchFn ⟨request.url, request, event⟩).isTruthy = false)
    (h₂ : (r.matchFn ⟨request.url, request, event⟩).isTruthy = true)
    (hhttp : jsStartsWith request.url.protocol "http" = true) :
    router.findMatchingRoute request.url request event =
      (l₁.map Route.id ++ [r.id],
       some (r, normalizeParams (r.matchFn ⟨request.url, request, event⟩))) ∧
    (router.handleRequest request event).matchEvals = l₁.map Route.id ++ [r.id] ∧
    (router.handleRequest request event).handlerInvocations =
      [(r.handler.id,
        ⟨request.url, request, event,
         normalizeParams (r.matchFn ⟨request.url, request, event⟩)⟩)] := by
  have hfind : router.findMatchingRoute request.url request event =
      (l₁.map Route.id ++ [r.id],
       some (r, normalizeParams (r.matchFn ⟨request.url, request, event⟩))) := by
    unfold Router.findMatchingRoute
    rw [hroutes]
    exact findMatchingRouteList_first_match _ l₁ l₂ r h₁ h₂
  have hhr := handleRequest_of_found router request event _ r _ hhttp hfind
  refine ⟨hfind, ?_, ?_⟩ <;>
    rw [hhr] <;>
    cases settleBehavior
      (r.handler.handle ⟨request.url, request, event,
        normalizeParams (r.matchFn ⟨request.url, request, event⟩)⟩) <;>
    cases router.catchHandler <;> rfl

/-- Witness for C1: two routes registered for GET that both match; the
first-registered route is selected, only its predicate runs, and its
handler is invoked. -/
theorem claim_C1_witness :
    routerAB.findMatchingRoute reqGetA.url reqGetA none =
      ([routeA.id], some (routeA, none)) ∧
    (routerAB.handleRequest reqGetA none).matchEvals = [routeA.id] ∧
    (routerAB.handleRequest reqGetA none).handlerInvocations =
      [(routeA.handler.id, ⟨reqGetA.url, reqGetA, none, none⟩)] :=
  claim_C1_earliest_registered_route_wins routerAB reqGetA none [] [routeB]
    routeA rfl (by simp) rfl (by decide)

/-- Claim C2: for a request whose URL scheme does not start with "http",
`handleRequest` returns `undefined`, and no match predicate, no handler
and no catch handler is invoked, whatever routes are registered. -/
theorem claim_C2_non_http_scheme_unhandled (router : Router) (request : Request)
    (event : Option Nat)
    (h : jsStartsWith request.url.protocol "http" = false) :
    router.handleRequest request event = ⟨none, [], [], []⟩ := by
  simp [Router.handleRequest, h]

/-- Witness for C2: a router with a matching GET route still produces no
response, no match evaluation and no handler invocation for an ftp URL. -/
theorem claim_C2_witness :
    routerAB.handleRequest reqFtpA none = ⟨none, [], [], []⟩ :=
  claim_C2_non_http_scheme_unhandled routerAB reqFtpA none (by decide)

theorem handleRequest_of_not_found (router : Router) (request : Request)
    (event : Option Nat) (tr : List Nat)
    (hhttp : jsStartsWith request.url.protocol "http" = true)
    (hfind : router.findMatchingRoute request.url request event = (tr, none)) :
    router.handleRequest request event =
      (match router.defaultHandler with
       | none => ⟨none, tr, [], []⟩
       | some d =>
         match settleBehavior (d.handle ⟨request.url, request, event, none⟩),
               router.catchHandler with
         | .error _, some c =>
           ⟨some (settleBehavior (c.handle ⟨request.url, request, event, none⟩)),
            tr, [(d.id, ⟨request.url, request, event, none⟩)],
            [(c.id, ⟨request.url, request, event, none⟩)]⟩
         | out, _ =>
           ⟨some out, tr, [(d.id, ⟨request.url, request, event, none⟩)], []⟩) := by
  cases hd : router.defaultHandler <;>
    simp [Router.handleRequest, hhttp, hfind, hd]

def routeE : Route := ⟨3, "GET", fun _ => .arr [], handlerA⟩

def routerE : Router := Router.new.registerRoute routeE

def handlerD : Handler := ⟨12, fun _ => .resolve "default"⟩

def routerD : Router := Router.new.setDefaultHandler handlerD

/-- Claim C6: a match predicate returning a truthy but empty array or a
truthy but empty object yields that route with params absent (never an
empty container), and the selected route's handler is invoked with params
absent. -/
theorem claim_C6_empty_match_result_gives_absent_params (router : Router)
    (request : Request) (event : Option Nat) (l₁ l₂ : List Route) (r : Route)
    (hroutes : (mapGet router.routes request.method).getD [] = l₁ ++ r :: l₂)
    (h₁ : ∀ r' ∈ l₁, (r'.matchFn ⟨request.url, request, event⟩).isTruthy = false)
    (h₂ : r.matchFn ⟨request.url, request, event⟩ = .arr [] ∨
          r.matchFn ⟨request.url, request, event⟩ = .obj [])
    (hhttp : jsStartsWith request.url.protocol "http" = true) :
    router.findMatchingRoute request.url request event =
      (l₁.map Route.id ++ [r.id], some (r, none)) ∧
    (router.handleRequest request event).handlerInvocations =
      [(r.handler.id, ⟨request.url, request, event, none⟩)] := by
  have h₂' : (r.matchFn ⟨request.url, request, event⟩).isTruthy = true := by
    rcases h₂ with h | h <;> rw [h] <;> rfl
  have hnp : normalizeParams (r.matchFn ⟨request.url, request, event⟩) = none := by
    rcases h₂ with h | h <;> rw [h] <;> rfl
  have hfind : router.findMatchingRoute request.url request event =
      (l₁.map Route.id ++ [r.id], some (r, none)) := by
    unfold Router.findMatchingRoute
    rw [hroutes, findMatchingRouteList_first_match _ l₁ l₂ r h₁ h₂', hnp]
  have hhr := handleRequest_of_found router request event _ r none hhttp hfind
  refine ⟨hfind, ?_⟩
  rw [hhr]
  cases settleBehavior (r.handler.handle ⟨request.url, request, event, none⟩) <;>
    cases router.catchHandler <;> rfl

/-- Witness for C6: a route whose match callback returns an empty array is
selected with absent params and its handler receives absent params. -/
theorem claim_C6_witness :
    routerE.findMatchingRoute reqGetA.url reqGetA none =
      ([routeE.id], some (routeE, none)) ∧
    (routerE.handleRequest reqGetA none).handlerInvocations =
      [(routeE.handler.id, ⟨reqGetA.url, reqGetA, none, none⟩)] :=
  claim_C6_empty_match_result_gives_absent_params routerE reqGetA none [] []
    routeE rfl (by simp) (Or.inl rfl) (by decide)

/-- Claim C7: for an http(s) request matching no registered route, a set
default handler is invoked with absent params; with no matching route and
no default handler, `handleRequest` returns `undefined` (not an error). -/
theorem claim_C7_default_handler_fallback (router : Router) (request : Request)
    (event : Option Nat) (tr : List Nat)
    (hfind : router.findMatchingRoute request.url request event = (tr, none))
    (hhttp : jsStartsWith request.url.protocol "http" = true) :
    (∀ d, router.defaultHandler = some d →
      (router.handleRequest request event).handlerInvocations =
        [(d.id, ⟨request.url, request, event, none⟩)]) ∧
    (router.defaultHandler = none →
      router.handleRequest request event = ⟨none, tr, [], []⟩) := by
  have hhr := handleRequest_of_not_found router request event tr hhttp hfind
  constructor
  · intro d hd
    rw [hhr, hd]
    dsimp only
    cases settleBehavior (d.handle ⟨request.url, request, event, none⟩) <;>
      cases router.catchHandler <;> rfl
  · intro hd
    rw [hhr, hd]

/-- Witness for C7: with no routes and a default handler, a GET request
invokes the default handler with absent params; with no routes and no
default handler, `handleRequest` returns `undefined`. -/
theorem claim_C7_witness :
    (routerD.handleRequest reqGetA none).handlerInvocations =
      [(handlerD.id, ⟨reqGetA.url, reqGetA, none, none⟩)] ∧
    Router.new.handleRequest reqGetA none = ⟨none, [], [], []⟩ :=
  ⟨(claim_C7_default_handler_fallback routerD reqGetA none [] rfl
      (by decide)).1 handlerD rfl,
   (claim_C7_default_handler_fallback Router.new reqGetA none [] rfl
      (by decide)).2 rfl⟩

def handlerT : Handler := ⟨13, fun _ => .throwSync "boom"⟩

def routeT : Route := ⟨4, "GET", fun _ => .truthy, handlerT⟩

def handlerC : Handler := ⟨14, fun _ => .resolve "fallback"⟩

def handlerCF : Handler := ⟨15, fun _ => .reject "catchfail"⟩

def routerTC : Router := (Router.new.registerRoute routeT).setCatchHandler handlerC

def routerTN : Router := Router.new.registerRoute routeT

def routerTCF : Router := (Router.new.registerRoute routeT).setCatchHandler handlerCF

/-- Claim C4: when the selected handler's handle operation throws
synchronously, a set catch handler is invoked exactly once; with no catch
handler set, `handleRequest` still returns a result whose asynchronous
outcome is the failure (no exception escapes synchronously). -/
theorem claim_C4_sync_throw_recovered (router : Router) (request : Request)
    (event : Option Nat) (tr : List Nat) (r : Route) (ps : Option Params)
    (e : String)
    (hfind : router.findMatchingRoute request.url request event =
      (tr, some (r, ps)))
    (hthrow : r.handler.handle ⟨request.url, request, event, ps⟩ = .throwSync e)
    (hhttp : jsStartsWith request.url.protocol "http" = true) :
    (∀ c, router.catchHandler = some c →
      (router.handleRequest request event).catchInvocations.length = 1) ∧
    (router.catchHandler = none →
      (router.handleRequest request event).response = some (Except.error e)) := by
  have hhr := handleRequest_of_found router request event tr r ps hhttp hfind
  rw [hthrow] at hhr
  constructor
  · intro c hc
    rw [hhr, hc]
    rfl
  · intro hc
    rw [hhr, hc]
    rfl

/-- Witness for C4: a route whose handler throws synchronously; with a
catch handler the catch handler runs exactly once, without one the
returned result settles to the thrown failure. -/
theorem claim_C4_witness :
    (routerTC.handleRequest reqGetA none).catchInvocations.length = 1 ∧
    (routerTN.handleRequest reqGetA none).response =
      some (Except.error "boom") :=
  ⟨(claim_C4_sync_throw_recovered routerTC reqGetA none [routeT.id] routeT none
      "boom" rfl rfl (by decide)).1 handlerC rfl,
   (claim_C4_sync_throw_recovered routerTN reqGetA none [routeT.id] routeT none
      "boom" rfl rfl (by decide)).2 rfl⟩

/-- Claim C5: with a catch handler configured and the selected handler's
result failing, the catch handler is invoked with url, request and event
but no params; its settled result becomes the final outcome, so a
fulfilled catch result is a fallback response and a failed catch result
propagates to the caller unrecovered. -/
theorem claim_C5_catch_handler_outcome (router : Router) (request : Request)
    (event : Option Nat) (tr : List Nat) (r : Route) (ps : Option Params)
    (e : String) (c : Handler)
    (hfind : router.findMatchingRoute request.url request event =
      (tr, some (r, ps)))
    (hfail : settleBehavior (r.handler.handle ⟨request.url, request, event, ps⟩) =
      Except.error e)
    (hcatch : router.catchHandler = some c)
    (hhttp : jsStartsWith request.url.protocol "http" = true) :
    (router.handleRequest request event).catchInvocations =
      [(c.id, ⟨request.url, request, event, none⟩)] ∧
    (router.handleRequest request event).response =
      some (settleBehavior (c.handle ⟨request.url, request, event, none⟩)) ∧
    (∀ fb, c.handle ⟨request.url, request, event, none⟩ = .resolve fb →
      (router.handleRequest request event).response = some (Except.ok fb)) ∧
    (∀ e2, settleBehavior (c.handle ⟨request.url, request, event, none⟩) =
        Except.error e2 →
      (router.handleRequest request event).response =
        some (Except.error e2)) := by
  have hhr := handleRequest_of_found router request event tr r ps hhttp hfind
  rw [hfail, hcatch] at hhr
  refine ⟨by rw [hhr], by rw [hhr], ?_, ?_⟩
  · intro fb hfb
    rw [hhr]
    dsimp only
    rw [hfb]
    rfl
  · intro e2 he2
    rw [hhr]
    dsimp only
    rw [he2]

/-- Witness for C5: a throwing route handler with a catch handler that
resolves gives the fallback response as final outcome; with a catch
handler whose own result rejects, that failure is the final outcome. -/
theorem claim_C5_witness :
    (routerTC.handleRequest reqGetA none).catchInvocations =
      [(handlerC.id, ⟨reqGetA.url, reqGetA, none, none⟩)] ∧
    (routerTC.handleRequest reqGetA none).response =
      some (Except.ok "fallback") ∧
    (routerTCF.handleRequest reqGetA none).response =
      some (Except.error "catchfail") :=
  ⟨(claim_C5_catch_handler_outcome routerTC reqGetA none [routeT.id] routeT none
      "boom" handlerC rfl rfl rfl (by decide)).1,
   (claim_C5_catch_handler_outcome routerTC reqGetA none [routeT.id] routeT none
      "boom" handlerC rfl rfl rfl (by decide)).2.2.1 "fallback" rfl,
   (claim_C5_catch_handler_outcome routerTCF reqGetA none [routeT.id] routeT none
      "boom" handlerCF rfl rfl rfl (by decide)).2.2.2 "catchfail" rfl⟩

theorem findIdx?_first_match {α : Type} {p : α → Bool} (l₁ l₂ : List α) (r : α)
    (h₁ : ∀ x ∈ l₁, p x = false) (h₂ : p r = true) :
    (l₁ ++ r :: l₂).findIdx? p = some l₁.length := by
  induction l₁ with
  | nil => simp [h₂]
  | cons a t ih =>
    have ha := h₁ a (List.mem_cons_self a t)
    have iht := ih (fun x hx => h₁ x (List.mem_cons_of_mem a hx))
    simp [List.findIdx?_cons, ha, iht]

theorem mapGet_cons_pos {p : String × List Route}
    {t : List (String × List Route)} {k : String} (h : (p.1 == k) = true) :
    mapGet (p :: t) k = some p.2 := by
  simp [mapGet, List.find?_cons, h]

theorem mapGet_cons_neg {p : String × List Route}
    {t : List (String × List Route)} {k : String} (h : (p.1 == k) = false) :
    mapGet (p :: t) k = mapGet t k := by
  simp [mapGet, List.find?_cons, h]

theorem mapHas_cons (p : String × List Route) (t : List (String × List Route))
    (k : String) : mapHas (p :: t) k = ((p.1 == k) || mapHas t k) := rfl

theorem mapHas_eq_isSome (m : List (String × List Route)) (k : String) :
    mapHas m k = (mapGet m k).isSome := by
  induction m with
  | nil => rfl
  | cons p t ih =>
    cases hb : (p.1 == k)
    · rw [mapHas_cons, hb, Bool.false_or, mapGet_cons_neg hb, ih]
    · rw [mapHas_cons, hb, Bool.true_or, mapGet_cons_pos hb]
      rfl

theorem mapGet_overwrite_self (m : List (String × List Route)) (k : String)
    (v : List Route) :
    mapGet (m.map (fun p => if p.1 == k then (k, v) else p)) k =
      if mapHas m k then some v else none := by
  induction m with
  | nil => rfl
  | cons p t ih =>
    rw [List.map_cons]
    cases hb : (p.1 == k)
    · rw [if_neg (by simp : ¬ false = true), mapGet_cons_neg hb,
        ih, mapHas_cons, hb, Bool.false_or]
    · rw [if_pos (rfl : true = true),
        mapGet_cons_pos (show ((((k, v) : String × List Route)).1 == k) = true
          by simp),
        mapHas_cons, hb, Bool.true_or, if_pos rfl]

theorem mapGet_overwrite_ne (m : List (String × List Route)) (k k' : String)
    (v : List Route) (h : k' ≠ k) :
    mapGet (m.map (fun p => if p.1 == k then (k, v) else p)) k' = mapGet m k' := by
  induction m with
  | nil => rfl
  | cons p t ih =>
    rw [List.map_cons]
    cases hb : (p.1 == k)
    · cases hb' : (p.1 == k')
      · rw [if_neg (by simp : ¬ false = true), mapGet_cons_neg hb',
          ih, mapGet_cons_neg hb']
      · rw [if_neg (by simp : ¬ false = true), mapGet_cons_pos hb',
          mapGet_cons_pos hb']
    · have hkk' : ((k : String) == k') = false := by
        simp only [beq_eq_false_iff_ne, ne_eq]
        exact fun hkk => h hkk.symm
      have hpk' : (p.1 == k') = false := by
        have hp1 : p.1 = k := by simpa using hb
        rw [hp1]
        exact hkk'
      rw [if_pos (rfl : true = true),
        mapGet_cons_neg (show ((((k, v) : String × List Route)).1 == k') = false
          from hkk'),
        ih, mapGet_cons_neg hpk']

theorem mapGet_mapSet_of_has (m : List (String × List Route)) (k k' : String)
    (v : List Route) (hk : mapHas m k = true) :
    mapGet (mapSet m k v) k' = if k' = k then some v else mapGet m k' := by
  unfold mapSet
  rw [if_pos hk]
  by_cases h : k' = k
  · subst h
    rw [mapGet_overwrite_self, if_pos hk, if_pos rfl]
  · rw [mapGet_overwrite_ne _ _ _ _ h, if_neg h]

def routeP : Route := ⟨5, "POST", fun _ => .falsy, handlerA⟩

def routeX : Route := ⟨6, "GET", fun _ => .falsy, handlerA⟩

/-- Claim C3: `unregisterRoute` throws the method-not-found error when the
method has no entry in the route map; it throws the distinct
not-registered error when the route is not present by identity in the
method's sequence; and on success it removes exactly the first
identity-matching entry, preserving the order of the remaining routes for
that method and leaving every other method's sequence and both optional
handlers untouched. -/
theorem claim_C3_unregister_route_semantics (router : Router) (route : Route) :
    (mapHas router.routes route.method = false →
      router.unregisterRouteS route =
        (router, some (WorkboxError.unregisterRouteButNotFoundWithMethod
          route.method))) ∧
    (∀ l, mapGet router.routes route.method = some l →
      (∀ r' ∈ l, (r'.id == route.id) = false) →
      router.unregisterRouteS route =
        (router, some WorkboxError.unregisterRouteRouteNotRegistered)) ∧
    (∀ l₁ l₂ r, mapGet router.routes route.method = some (l₁ ++ r :: l₂) →
      (∀ r' ∈ l₁, (r'.id == route.id) = false) →
      (r.id == route.id) = true →
      (router.unregisterRouteS route).2 = none ∧
      mapGet (router.unregisterRouteS route).1.routes route.method =
        some (l₁ ++ l₂) ∧
      (∀ m, m ≠ route.method →
        mapGet (router.unregisterRouteS route).1.routes m =
          mapGet router.routes m) ∧
      (router.unregisterRouteS route).1.defaultHandler = router.defaultHandler ∧
      (router.unregisterRouteS route).1.catchHandler = router.catchHandler) := by
  refine ⟨?_, ?_, ?_⟩
  · intro hhas
    simp only [Router.unregisterRouteS]
    rw [if_pos (by simp [hhas])]
  · intro l hget hnone
    have hhas : mapHas router.routes route.method = true := by
      rw [mapHas_eq_isSome, hget]
      rfl
    have hidx : routeIndexOf l route = -1 := by
      unfold routeIndexOf
      rw [List.findIdx?_eq_none_iff.mpr hnone]
    simp only [Router.unregisterRouteS, hget, Option.getD_some, hidx]
    rw [if_neg (by simp [hhas]), if_neg (by norm_num)]
  · intro l₁ l₂ r hget h₁ h₂
    have hhas : mapHas router.routes route.method = true := by
      rw [mapHas_eq_isSome, hget]
      rfl
    have hidx : routeIndexOf (l₁ ++ r :: l₂) route = (l₁.length : Int) := by
      unfold routeIndexOf
      rw [findIdx?_first_match l₁ l₂ r h₁ h₂]
    have herase : (l₁ ++ r :: l₂).eraseIdx l₁.length = l₁ ++ l₂ := by
      rw [List.eraseIdx_append_of_length_le (Nat.le_refl _), Nat.sub_self,
        List.eraseIdx_cons_zero]
    have hres : router.unregisterRouteS route =
        ({ router with routes := mapSet router.routes route.method (l₁ ++ l₂) },
         none) := by
      simp only [Router.unregisterRouteS, hget, Option.getD_some, hidx]
      rw [if_neg (by simp [hhas]), if_pos (by omega : (l₁.length : Int) > -1),
        Int.toNat_ofNat, herase]
    rw [hres]
    refine ⟨rfl, ?_, ?_, rfl, rfl⟩
    · rw [mapGet_mapSet_of_has _ _ _ _ hhas, if_pos rfl]
    · intro m hm
      rw [mapGet_mapSet_of_has _ _ _ _ hhas, if_neg hm]

/-- Witness for C3: unregistering a POST route from a router with only GET
routes throws the method-not-found error; unregistering a GET route that
was never registered throws the not-registered error; unregistering the
first of two registered GET routes succeeds and leaves exactly the second
one. -/
theorem claim_C3_witness :
    routerAB.unregisterRouteS routeP =
      (routerAB,
       some (WorkboxError.unregisterRouteButNotFoundWithMethod "POST")) ∧
    routerAB.unregisterRouteS routeX =
      (routerAB, some WorkboxError.unregisterRouteRouteNotRegistered) ∧
    ((routerAB.unregisterRouteS routeA).2 = none ∧
     mapGet (routerAB.unregisterRouteS routeA).1.routes "GET" =
       some [routeB]) :=
  ⟨(claim_C3_unregister_route_semantics routerAB routeP).1 (by decide),
   (claim_C3_unregister_route_semantics routerAB routeX).2.1
     [routeA, routeB] rfl (by decide),
   (fun h => ⟨h.1, h.2.1⟩)
     ((claim_C3_unregister_route_semantics routerAB routeA).2.2 [] [routeB]
       routeA rfl (by simp) (by decide))⟩

/-- Claim C10: whenever `unregisterRoute` throws either of its two errors,
the Router state is completely unchanged: nothing was removed and no
sequence was reordered. -/
theorem claim_C10_unregister_atomic_on_failure (router : Router)
    (route : Route) (e : WorkboxError)
    (h : (router.unregisterRouteS route).2 = some e) :
    (router.unregisterRouteS route).1 = router := by
  simp only [Router.unregisterRouteS] at h ⊢
  by_cases h1 : mapHas router.routes route.method
  · rw [if_neg (not_not_intro h1)] at h ⊢
    by_cases h2 : routeIndexOf ((mapGet router.routes route.method).getD [])
        route > -1
    · rw [if_pos h2] at h
      simp at h
    · rw [if_neg h2]
  · rw [if_pos h1]

/-- Witness for C10: unregistering from an empty router throws, and the
state afterwards is the untouched empty router. -/
theorem claim_C10_witness :
    (Router.new.unregisterRouteS routeA).1 = Router.new :=
  claim_C10_unregister_atomic_on_failure Router.new routeA
    (WorkboxError.unregisterRouteButNotFoundWithMethod "GET") rfl

/-- Claim C9: matching is read-only.  `findMatchingRoute` and
`handleRequest`, in state-passing form, return the Router unchanged: the
per-method route sequences, the default handler and the catch handler are
the same after the call as before it. -/
theorem claim_C9_matching_is_readonly (router : Router) (url : URLModel)
    (request : Request) (event : Option Nat) :
    (router.findMatchingRouteS url request event).1 = router ∧
    (router.handleRequestS request event).1 = router ∧
    (router.handleRequestS request event).1.routes = router.routes ∧
    (router.handleRequestS request event).1.defaultHandler =
      router.defaultHandler ∧
    (router.handleRequestS request event).1.catchHandler =
      router.catchHandler :=
  ⟨rfl, rfl, rfl, rfl, rfl⟩

theorem le_foldr_max {l : List Nat} {x : Nat} (h : x ∈ l) :
    x ≤ l.foldr max 0 := by
  induction l with
  | nil => cases h
  | cons a t ih =>
    rw [List.foldr_cons]
    rcases List.mem_cons.mp h with rfl | ht
    · exact Nat.le_max_left _ _
    · exact Nat.le_trans (ih ht) (Nat.le_max_right _ _)

/-- Claim C8 (amended): for a recognized cache-priming message listing n
URLs, the listener starts one derived `handleRequest` operation per listed
URL (in payload order); an acknowledgement is posted only when the message
carried a reply port, only when every derived operation fulfilled (any
failure means no acknowledgement is ever posted), and only at a time no
earlier than the settle time of every derived operation; conversely, with
a reply port present and every derived operation fulfilling, the
acknowledgement is posted once all of them have settled. -/
theorem claim_C8_cache_listener_awaits_all (router : Router)
    (d : CacheURLsMessageData) (hasPort : Bool)
    (mkRequest : String → Option String → Request)
    (settleTime : Request → Nat)
    (htype : d.type = "CACHE_URLS") :
    (router.onCacheMessage (some d) hasPort mkRequest
        settleTime).derivedRequests =
      d.urlsToCache.map (fun e => match e with
        | .str u => mkRequest u none
        | .pair u i => mkRequest u i) ∧
    (router.onCacheMessage (some d) hasPort mkRequest
        settleTime).derivedRequests.length = d.urlsToCache.length ∧
    (router.onCacheMessage (some d) hasPort mkRequest
        settleTime).derivedOutcomes =
      (router.onCacheMessage (some d) hasPort mkRequest
        settleTime).derivedRequests.map
          (fun req => router.handleRequest req none) ∧
    (∀ t, (router.onCacheMessage (some d) hasPort mkRequest
        settleTime).replyPostedAt = some t →
      hasPort = true ∧
      (router.onCacheMessage (some d) hasPort mkRequest
        settleTime).derivedOutcomes.all isFulfilled = true ∧
      ∀ req ∈ (router.onCacheMessage (some d) hasPort mkRequest
        settleTime).derivedRequests, settleTime req ≤ t) ∧
    (hasPort = true →
      (router.onCacheMessage (some d) hasPort mkRequest
        settleTime).derivedOutcomes.all isFulfilled = true →
      (router.onCacheMessage (some d) hasPort mkRequest
        settleTime).replyPostedAt =
        some (((router.onCacheMessage (some d) hasPort mkRequest
          settleTime).derivedRequests.map settleTime).foldr max 0)) := by
  refine ⟨?_, ?_, ?_, ?_, ?_⟩
  · simp [Router.onCacheMessage, htype]
  · simp [Router.onCacheMessage, htype]
  · simp [Router.onCacheMessage, htype]
  · intro t ht
    simp only [Router.onCacheMessage, htype, eq_self_iff_true, if_true] at ht ⊢
    split at ht
    · rename_i hc
      have hport : hasPort = true := (Bool.and_eq_true_iff.mp hc).1
      have hteq := Option.some.inj ht
      refine ⟨hport, (Bool.and_eq_true_iff.mp hc).2, ?_⟩
      intro req hreq
      have hle := le_foldr_max (List.mem_map_of_mem settleTime hreq)
      omega
    · cases ht
  · intro hp hall
    simp only [Router.onCacheMessage, htype, eq_self_iff_true, if_true]
      at hall ⊢
    rw [if_pos (by rw [hp, Bool.true_and]; exact hall)]

def msgXY : CacheURLsMessageData :=
  ⟨"CACHE_URLS", [.str "./x.js", .pair "./y.js" (some "no-cors")]⟩

def mkRequestW : String → Option String → Request :=
  fun u _ => ⟨⟨"https:", u⟩, "GET"⟩

def settleTimeW : Request → Nat :=
  fun req => req.url.href.length

/-- Witness for C8: a cache-priming message listing a bare URL and a
[URL, requestInit] pair yields exactly two derived request-handling
operations, and any posted acknowledgement comes no earlier than every
derived operation's settle time. -/
theorem claim_C8_witness :
    (Router.new.onCacheMessage (some msgXY) true mkRequestW
        settleTimeW).derivedRequests.length = 2 ∧
    (Router.new.onCacheMessage (some msgXY) true mkRequestW
        settleTimeW).derivedOutcomes =
      (Router.new.onCacheMessage (some msgXY) true mkRequestW
        settleTimeW).derivedRequests.map
          (fun req => Router.new.handleRequest req none) ∧
    (∀ t, (Router.new.onCacheMessage (some msgXY) true mkRequestW
        settleTimeW).replyPostedAt = some t →
      true = true ∧
      (Router.new.onCacheMessage (some msgXY) true mkRequestW
        settleTimeW).derivedOutcomes.all isFulfilled = true ∧
      ∀ req ∈ (Router.new.onCacheMessage (some msgXY) true mkRequestW
        settleTimeW).derivedRequests, settleTimeW req ≤ t) := by
  have h := claim_C8_cache_listener_awaits_all Router.new msgXY true mkRequestW
    settleTimeW rfl
  exact ⟨h.2.1, h.2.2.1, h.2.2.2.1⟩

/-- A router obtained by registering and then unregistering a GET route:
the GET key remains in the route map with an empty sequence. -/
def routerEmptyGet : Router :=
  ((Router.new.registerRoute routeA).unregisterRouteS routeA).1

/-- Counterexample for C3 as stated: here the method GET has zero
registered routes, yet unregistering a route that was never registered
fails with the not-registered error rather than the method-not-found
error, because the code chooses the error by map-key presence, not by the
number of registered routes. -/
theorem claim_C3_counterexample :
    mapGet routerEmptyGet.routes "GET" = some [] ∧
    routerEmptyGet.unregisterRouteS routeX =
      (routerEmptyGet, some WorkboxError.unregisterRouteRouteNotRegistered) :=
  ⟨rfl, rfl⟩

/-- Counterexample for C8 as stated: the message carries a reply port and
every derived operation settles, but one of them fails, so the awaited
batch rejects and the completion acknowledgement is never posted. -/
theorem claim_C8_counterexample :
    ¬ ∃ t, (routerTN.onCacheMessage (some msgXY) true mkRequestW
        settleTimeW).replyPostedAt = some t := by
  rintro ⟨t, ht⟩
  rw [show (routerTN.onCacheMessage (some msgXY) true mkRequestW
      settleTimeW).replyPostedAt = none from rfl] at ht
  cases ht
